import Mathlib

/-!
Verification of the image-agent pipeline (Curtis-Mortensen/image-agent).

Shallow embedding of the Python sources:
* src/src/EvaluationGrader.py  — grade_evaluation
* src/src/BestImageSelector.py — select_best_variant
* src/src/PipelineOrchestrator.py — per-prompt iteration loop of run_pipeline
  together with the refine condition of process_variants
* src/src/prompt_refiner.py — refine_prompt and _save_refined_prompt
* src/src/PromptHandler.py  — save_results (iterations table)
* src/src/BatchGenerator.py — _get_batch_size
* src/config.py — PIPELINE_CONFIG constants

Numeric scores are modelled by rationals; Python dictionaries by structures;
the sqlite tables by lists of rows; fallible code by Except/Option.
-/

/-! ### Python string primitives

Python `str.split()` (no argument) splits on runs of whitespace and discards
empty pieces; `str.lower()` lower-cases each character. -/

/-- One step of Python `str.split()`: accumulate non-whitespace characters,
emit a word when whitespace (or the end) is reached.  `acc` holds the
characters of the current word in reverse order. -/
def pySplitAux : List Char → List Char → List String
  | [], acc => if acc.isEmpty then [] else [String.mk acc.reverse]
  | c :: cs, acc =>
      if c.isWhitespace then
        if acc.isEmpty then pySplitAux cs [] else String.mk acc.reverse :: pySplitAux cs []
      else pySplitAux cs (c :: acc)

/-- Python `s.split()` with no separator argument. -/
def pyWords (s : String) : List String := pySplitAux s.data []

/-- Python `s.lower()` (ASCII case folding, which is all the pipeline needs). -/
def pyLower (s : String) : String := String.mk (s.data.map Char.toLower)

/-- `set(s.lower().split())` — the word set used by EvaluationGrader.py:35-36. -/
def wordSet (s : String) : Finset String := (pyWords (pyLower s)).toFinset

/-! ### Pipeline configuration (src/config.py, PIPELINE_CONFIG) -/

/-- `PIPELINE_CONFIG["quality_threshold"] = 0.7` (config.py:33). -/
def quality_threshold : ℚ := 7/10

/-- `PIPELINE_CONFIG["refinement_threshold"] = 0.85` (config.py:34). -/
def refinement_threshold : ℚ := 17/20

/-- `PIPELINE_CONFIG["max_iterations"] = 3` (config.py:27). -/
def max_iterations : Nat := 3

/-! ### EvaluationGrader.grade_evaluation (EvaluationGrader.py:18-75) -/

/-- The result record returned by `grade_evaluation`. -/
structure GradeResult where
  score : ℚ
  passed : Bool
  needs_refinement : Bool
  feedback : String
deriving DecidableEq, Repr

/-- The `try:` body of `grade_evaluation` (EvaluationGrader.py:33-66).
The only statement of the body that can raise is the division
`len(common_elements) / len(prompt_elements)` (line 40), which raises
`ZeroDivisionError` when the prompt has no words; that is modelled by the
`Except.error` branch. -/
def grade_evaluation_body (description original_prompt : String) : Except String GradeResult :=
  let prompt_elements := wordSet original_prompt
  let description_elements := wordSet description
  let common_elements := prompt_elements ∩ description_elements
  if prompt_elements.card = 0 then
    Except.error "division by zero"
  else
    let score0 : ℚ := (common_elements.card : ℚ) / (prompt_elements.card : ℚ)
    let description_length_factor : ℚ := min (((pyWords description).length : ℚ) / 50) 1
    let score1 : ℚ := score0 * (7/10) + description_length_factor * (3/10)
    let score : ℚ := max 0 (min 1 score1)
    let passed : Bool := decide (quality_threshold ≤ score)
    let needs_refinement : Bool := decide (score < refinement_threshold)
    let feedback : String :=
      if refinement_threshold ≤ score then
        "Image successfully captures the prompt\x27s requirements."
      else if quality_threshold ≤ score then
        "Image meets basic requirements but could be improved."
      else
        "Image does not adequately match the prompt requirements."
    Except.ok { score := score, passed := passed,
                needs_refinement := needs_refinement, feedback := feedback }

/-- `grade_evaluation` with its catch-all `except` (EvaluationGrader.py:68-75):
any internal error is swallowed and turned into the fixed failure record. -/
def grade_evaluation (description original_prompt : String) : GradeResult :=
  match grade_evaluation_body description original_prompt with
  | Except.ok r => r
  | Except.error e =>
      { score := 0, passed := false, needs_refinement := true,
        feedback := "Error during evaluation: " ++ e }

/-! Claim-side formulas, written from the specification text. -/

/-- Spec formula: `term_overlap = |prompt_words ∩ description_words| / |prompt_words|`
with set semantics on lower-cased whitespace-split words. -/
def term_overlap (description original_prompt : String) : ℚ :=
  ((wordSet original_prompt ∩ wordSet description).card : ℚ) /
    ((wordSet original_prompt).card : ℚ)

/-- Spec formula: `length_factor = min(word count of description / 50, 1.0)`. -/
def length_factor (description : String) : ℚ :=
  min (((pyWords description).length : ℚ) / 50) 1

/-- Spec formula: `score = clamp(term_overlap * 0.7 + length_factor * 0.3, 0.0, 1.0)`. -/
def claimed_score (description original_prompt : String) : ℚ :=
  max 0 (min 1 (term_overlap description original_prompt * (7/10) +
                length_factor description * (3/10)))

/-! ### BestImageSelector.select_best_variant (BestImageSelector.py:15-44) -/

/-- A generated image variant as the selector sees it: a dictionary that may
or may not carry an `evaluation_score` entry.  The `id` field stands for the
rest of the dictionary (image path, prompt text, …) and distinguishes
variants that happen to have equal scores. -/
structure Variant where
  id : Nat
  evaluation_score : Option ℚ
deriving DecidableEq, Repr

/-- `v.get("evaluation_score", 0)` (BestImageSelector.py:32,41). -/
def scoreOf (v : Variant) : ℚ := v.evaluation_score.getD 0

/-- The filter condition of BestImageSelector.py:30-33. -/
def qualifies (v : Variant) : Bool := decide (quality_threshold ≤ scoreOf v)

/-- One step of Python `max(..., key=...)`: the running best is replaced only
when a later element has a strictly greater key, so ties keep the earlier
element. -/
def pymaxStep (best x : Variant) : Variant :=
  if scoreOf best < scoreOf x then x else best

/-- Python `max(v :: vs, key=lambda x: x.get("evaluation_score", 0))`. -/
def pymax (v : Variant) (vs : List Variant) : Variant := vs.foldl pymaxStep v

/-- `select_best_variant` (BestImageSelector.py:15-44): `None` on an empty
input, `None` when no variant reaches the quality threshold, otherwise the
maximum-score element of the qualifying sublist. -/
def select_best_variant (variants : List Variant) : Option Variant :=
  if variants.isEmpty then none
  else
    match variants.filter qualifies with
    | [] => none
    | q :: qs => some (pymax q qs)

/-- Spec-side selector: the first variant in original list order that
qualifies and whose score is maximal among the qualifying variants. -/
def firstMaximalQualifier (variants : List Variant) : Option Variant :=
  variants.find? (fun v => qualifies v &&
    variants.all (fun w => !qualifies w || decide (scoreOf w ≤ scoreOf v)))

/-! ### Per-prompt iteration loop (PipelineOrchestrator.py:188-205, 133-151) -/

/-- The fields of the best variant that drive the pipeline loop. -/
structure BestVariant where
  needs_refinement : Bool
deriving DecidableEq, Repr

/-- Whether `process_variants` invokes `prompt_refiner.refine_prompt` in the
iteration that produced best variant `v` (PipelineOrchestrator.py:133-151):
only when `iteration < max_iterations` and the best variant needs
refinement. -/
def refineInvoked (maxIter i : Nat) (v : BestVariant) : Bool :=
  decide (i < maxIter) && v.needs_refinement

/-- The per-prompt `for iteration in range(1, max_iterations + 1)` loop of
`run_pipeline` (PipelineOrchestrator.py:188-205).  `step i` is the outcome of
`process_variants` at iteration `i` (`none` = no best variant).  The result
is the trace of executed iterations, each paired with whether
`refine_prompt` was invoked during it.  The loop breaks early when an
iteration yields no best variant or a best variant that no longer needs
refinement; `fuel` counts the iterations remaining in the range. -/
def promptLoop (maxIter : Nat) (step : Nat → Option BestVariant) :
    Nat → Nat → List (Nat × Bool)
  | 0, _ => []
  | fuel + 1, i =>
      match step i with
      | none => [(i, false)]
      | some v =>
          if v.needs_refinement then
            (i, refineInvoked maxIter i v) :: promptLoop maxIter step fuel (i + 1)
          else
            [(i, refineInvoked maxIter i v)]

/-- The whole per-prompt loop, starting at iteration 1. -/
def runPromptPipeline (maxIter : Nat) (step : Nat → Option BestVariant) :
    List (Nat × Bool) :=
  promptLoop maxIter step maxIter 1

/-! ### PromptHandler.save_results (PromptHandler.py:114-145)

The repository never issues a `CREATE TABLE` for the `iterations` table that
`save_results` writes to; only the write itself appears under src/. -/

/-- A row of the `iterations` table.  `evaluation_text` holds
`evaluation["evaluation_text"]` when an evaluation dictionary was passed,
`NULL` otherwise (PromptHandler.py:128). -/
structure IterationRow where
  prompt_id : String
  iteration : Int
  image_path : Option String
  evaluation_text : Option String
  status : String
deriving DecidableEq, Repr

/-- Modelled from the spec: the `iterations` table schema is missing from
src/ (no CREATE TABLE anywhere in the repository); the spec invariant
"at most one Iteration record per (prompt, iteration number) pair" makes
(prompt_id, iteration) its unique key.  SQLite `INSERT OR REPLACE` then
deletes any row conflicting on that key and inserts the new row. -/
def insertOrReplaceIteration (table : List IterationRow) (r : IterationRow) :
    List IterationRow :=
  (table.filter (fun s =>
    !(s.prompt_id = r.prompt_id && s.iteration = r.iteration))) ++ [r]

/-- `save_results` (PromptHandler.py:114-130): one `INSERT OR REPLACE INTO
iterations` with status "completed" when an evaluation is present,
"generated" otherwise.  (The subsequent `UPDATE prompt_status` touches a
different table and is irrelevant to the iterations rows.) -/
def save_results (table : List IterationRow) (prompt_id : String) (iteration : Int)
    (image_path : Option String) (evaluation : Option String) : List IterationRow :=
  insertOrReplaceIteration table
    { prompt_id := prompt_id, iteration := iteration, image_path := image_path,
      evaluation_text := evaluation,
      status := if evaluation.isSome then "completed" else "generated" }

/-- `SELECT ... WHERE prompt_id = ? AND iteration = ?` over the table. -/
def readIteration (table : List IterationRow) (prompt_id : String)
    (iteration : Int) : List IterationRow :=
  table.filter (fun s => s.prompt_id = prompt_id && s.iteration = iteration)

/-! ### PromptRefiner.refine_prompt (prompt_refiner.py:97-146, 48-79) -/

/-- Character-list version of Python `str.startswith` used to build the
substring test below. -/
def charsStartWith : List Char → List Char → Bool
  | [], _ => true
  | _ :: _, [] => false
  | c :: cs, d :: ds => c = d && charsStartWith cs ds

/-- Python `needle in hay` on strings: some suffix of `hay` starts with
`needle`. -/
def charsContain (needle : List Char) : List Char → Bool
  | [] => needle.isEmpty
  | c :: cs => charsStartWith needle (c :: cs) || charsContain needle cs

/-- `self.adherence_phrase.lower() in evaluation_text.lower()`
(prompt_refiner.py:108). -/
def containsPhrase (phrase text : String) : Bool :=
  charsContain (pyLower phrase).data (pyLower text).data

/-- `self.adherence_phrase` (prompt_refiner.py:22). -/
def adherence_phrase : String := "Image adheres to the prompt"

/-- A row of the `refined_prompts` table (prompt_refiner.py:34-46). -/
structure RefinedRow where
  original_prompt_id : String
  iteration : Int
  refined_prompt : String
  evaluation_text : String
  needs_refinement : Bool
deriving DecidableEq, Repr

/-- `SELECT COALESCE(MAX(iteration), 0) + 1 FROM refined_prompts WHERE
original_prompt_id = ?` (prompt_refiner.py:55-60). -/
def nextIteration (db : List RefinedRow) (pid : String) : Int :=
  (match (db.filter (fun r => r.original_prompt_id = pid)).map
      (fun r => r.iteration) with
   | [] => 0
   | x :: xs => xs.foldl max x) + 1

/-- `_save_refined_prompt` (prompt_refiner.py:48-79): append a row at the
next iteration number for this prompt. -/
def saveRefinedPrompt (db : List RefinedRow) (pid evaluation_text refined_content : String)
    (needs_refinement : Bool) : List RefinedRow :=
  db ++ [{ original_prompt_id := pid, iteration := nextIteration db pid,
           refined_prompt := refined_content, evaluation_text := evaluation_text,
           needs_refinement := needs_refinement }]

/-- What a call to `refine_prompt` produced: its return value, whether the
Gemini model was invoked, and the `refined_prompts` table afterwards. -/
structure RefineResult where
  result : Option String
  llm_invoked : Bool
  db : List RefinedRow
deriving DecidableEq, Repr

/-- `refine_prompt` (prompt_refiner.py:97-146).  `evaluation_result` is the
`evaluation_text` entry of the evaluation dictionary when present.  `llm`
models `self.model.generate_content(...).text`: `none` covers both an API
exception (caught by the outer `except`, returning the original prompt) and
an empty response text (line 129-131) — in both cases nothing is saved and
the original prompt is returned.  The local `needs_refinement` starts `True`
(line 106); the only assignment to `False` (line 110) is immediately
followed by `return original_prompt`, before any database write. -/
def refine_prompt (db : List RefinedRow) (llm : Option String)
    (original_prompt prompt_id : String) (evaluation_result : Option String) :
    RefineResult :=
  match evaluation_result with
  | none => { result := none, llm_invoked := false, db := db }
  | some evaluation_text =>
      let needs_refinement : Bool := true
      if containsPhrase adherence_phrase evaluation_text then
        { result := some original_prompt, llm_invoked := false, db := db }
      else
        match llm with
        | none => { result := some original_prompt, llm_invoked := true, db := db }
        | some refined_content =>
            { result := some refined_content, llm_invoked := true,
              db := saveRefinedPrompt db prompt_id evaluation_text refined_content
                      needs_refinement }

/-! ### BatchGenerator._get_batch_size (BatchGenerator.py:24-36) -/

/-- `PIPELINE_CONFIG["batch_size"]` (config.py:28-32). -/
def batch_size_min : Int := 1

/-- `PIPELINE_CONFIG["batch_size"]["max"]` (config.py:30). -/
def batch_size_max : Int := 10

/-- `PIPELINE_CONFIG["batch_size"]["default"]` (config.py:31). -/
def batch_size_default : Int := 5

/-- Python `requested_size or default`: `None` and `0` are falsy and give
the default; any other integer is returned as is. -/
def pyOrDefault (requested_size : Option Int) (dflt : Int) : Int :=
  match requested_size with
  | none => dflt
  | some n => if n = 0 then dflt else n

/-- `_get_batch_size` (BatchGenerator.py:24-36):
`max(min, min(size, max))` after the falsy-default step. -/
def get_batch_size (requested_size : Option Int) : Int :=
  max batch_size_min (min (pyOrDefault requested_size batch_size_default) batch_size_max)

/-! ## Helper lemmas -/

/-- Stepping lemma for `List.find?` with the predicate explicit. -/
theorem find?_cons_true (p : Variant → Bool) (a : Variant) (l : List Variant)
    (h : p a = true) : List.find? p (a :: l) = some a := by
  simp [List.find?_cons, h]

/-- Stepping lemma for `List.find?` with the predicate explicit. -/
theorem find?_cons_false (p : Variant → Bool) (a : Variant) (l : List Variant)
    (h : p a = false) : List.find? p (a :: l) = List.find? p l := by
  simp [List.find?_cons, h]

/-- Quantifying over a filtered list is quantifying over the original list
with the filter condition as a guard. -/
theorem all_filter_iff (l : List Variant) (p q : Variant → Bool) :
    (l.filter p).all q = l.all (fun x => !p x || q x) := by
  induction l with
  | nil => rfl
  | cons a l ih =>
      cases hp : p a with
      | true => simp [List.filter_cons, hp, List.all_cons, ih]
      | false => simp [List.filter_cons, hp, List.all_cons, ih]

/-- Searching for the first element satisfying a conjunction is searching
the filtered list for the second conjunct. -/
theorem find_and_filter (l : List Variant) (p q : Variant → Bool) :
    l.find? (fun x => p x && q x) = (l.filter p).find? q := by
  induction l with
  | nil => rfl
  | cons a l ih =>
      cases hp : p a with
      | true =>
          have hfil : List.filter p (a :: l) = a :: List.filter p l := by
            simp [List.filter_cons, hp]
          cases hq : q a with
          | true =>
              rw [find?_cons_true (fun x => p x && q x) a l (by simp [hp, hq])]
              rw [hfil, find?_cons_true q a (l.filter p) hq]
          | false =>
              rw [find?_cons_false (fun x => p x && q x) a l (by simp [hp, hq])]
              rw [hfil, find?_cons_false q a (l.filter p) hq]
              exact ih
      | false =>
          rw [find?_cons_false (fun x => p x && q x) a l (by simp [hp])]
          have hfil : List.filter p (a :: l) = List.filter p l := by
            simp [List.filter_cons, hp]
          rw [hfil]
          exact ih

/-- Python `max` keeps the seed when nothing later strictly beats it. -/
theorem pymax_of_all_le (us : List Variant) (q : Variant)
    (h : ∀ w ∈ us, scoreOf w ≤ scoreOf q) : pymax q us = q := by
  induction us with
  | nil => rfl
  | cons w ws ih =>
      have hw : ¬ scoreOf q < scoreOf w := not_lt.mpr (h w (List.mem_cons_self w ws))
      have hs : pymaxStep q w = q := by simp [pymaxStep, hw]
      simp only [pymax, List.foldl_cons, hs]
      exact ih (fun x hx => h x (List.mem_cons_of_mem w hx))

/-- Python `max(..., key=...)` over a nonempty list returns exactly the first
element of the list whose key is maximal. -/
theorem find_first_max (qs : List Variant) : ∀ q : Variant,
    List.find? (fun v => (q :: qs).all (fun w => decide (scoreOf w ≤ scoreOf v))) (q :: qs)
      = some (pymax q qs) := by
  induction qs with
  | nil =>
      intro q
      exact find?_cons_true _ q [] (by simp)
  | cons u us ih =>
      intro q
      rcases lt_or_ge (scoreOf q) (scoreOf u) with h | h
      · -- the new element u strictly beats q: q is skipped on both sides
        have hstep : pymaxStep q u = u := by simp [pymaxStep, h]
        have hfun : (fun v => (q :: u :: us).all (fun w => decide (scoreOf w ≤ scoreOf v)))
            = (fun v => (u :: us).all (fun w => decide (scoreOf w ≤ scoreOf v))) := by
          funext x
          simp only [List.all_cons]
          cases hux : decide (scoreOf u ≤ scoreOf x) with
          | false => simp [hux]
          | true =>
              have hqx : scoreOf q ≤ scoreOf x :=
                le_trans (le_of_lt h) (of_decide_eq_true hux)
              simp [hux, hqx]
        have hq : (u :: us).all (fun w => decide (scoreOf w ≤ scoreOf q)) = false := by
          simp only [List.all_cons]
          have hd : decide (scoreOf u ≤ scoreOf q) = false := decide_eq_false (not_le.mpr h)
          simp [hd]
        rw [hfun, find?_cons_false _ q (u :: us) hq, ih u]
        simp [pymax, hstep]
      · -- u does not beat q: u is irrelevant on both sides
        have hstep : pymaxStep q u = q := by simp [pymaxStep, not_lt.mpr h]
        have hfun : (fun v => (q :: u :: us).all (fun w => decide (scoreOf w ≤ scoreOf v)))
            = (fun v => (q :: us).all (fun w => decide (scoreOf w ≤ scoreOf v))) := by
          funext x
          simp only [List.all_cons]
          cases hqx : decide (scoreOf q ≤ scoreOf x) with
          | false => simp [hqx]
          | true =>
              have hux : scoreOf u ≤ scoreOf x := le_trans h (of_decide_eq_true hqx)
              simp [hqx, hux]
        have hrhs : pymax q (u :: us) = pymax q us := by
          simp [pymax, hstep]
        rw [hfun, hrhs]
        cases hq : (q :: us).all (fun w => decide (scoreOf w ≤ scoreOf q)) with
        | true =>
            rw [find?_cons_true _ q (u :: us) hq]
            have hall : ∀ w ∈ us, scoreOf w ≤ scoreOf q := by
              intro w hw
              simp only [List.all_cons, Bool.and_eq_true, List.all_eq_true] at hq
              exact of_decide_eq_true (hq.2 w hw)
            rw [pymax_of_all_le us q hall]
        | false =>
            have hu : (q :: us).all (fun w => decide (scoreOf w ≤ scoreOf u)) = false := by
              simp only [List.all_cons] at hq ⊢
              cases hqu : decide (scoreOf q ≤ scoreOf u) with
              | false => simp [hqu]
              | true =>
                  have hequ : scoreOf u = scoreOf q :=
                    le_antisymm h (of_decide_eq_true hqu)
                  have hqq : decide (scoreOf q ≤ scoreOf q) = true := by simp
                  rw [hqq] at hq
                  simp only [Bool.true_and] at hq
                  simp only [hqu, Bool.true_and, hequ]
                  exact hq
            rw [find?_cons_false _ q (u :: us) hq, find?_cons_false _ u us hu]
            have hih := ih q
            rw [find?_cons_false _ q us hq] at hih
            exact hih

/-! ## Claim theorems -/

/-- C1: for every (description, original_prompt) where the prompt has at
least one word, `grade_evaluation` returns
`score = clamp(term_overlap * 0.7 + length_factor * 0.3, 0, 1)` with
set-semantics term overlap and `length_factor = min(word count / 50, 1)`,
`passed = (score ≥ 0.7)` and `needs_refinement = (score < 0.85)`. -/
theorem grade_evaluation_matches_spec (d p : String) (h : wordSet p ≠ ∅) :
    (grade_evaluation d p).score = claimed_score d p
    ∧ ((grade_evaluation d p).passed = true ↔ quality_threshold ≤ claimed_score d p)
    ∧ ((grade_evaluation d p).needs_refinement = true ↔
        claimed_score d p < refinement_threshold) := by
  have hc : ¬ (wordSet p).card = 0 := by simpa [Finset.card_eq_zero] using h
  unfold grade_evaluation grade_evaluation_body
  rw [if_neg hc]
  simp [claimed_score, term_overlap, length_factor, decide_eq_true_iff]

/-- C1 witness: concrete evaluation at description "a red cat" and prompt
"a cat" (score 359/500). -/
theorem grade_evaluation_matches_spec_witness :
    wordSet "a cat" ≠ ∅ ∧
    ((grade_evaluation "a red cat" "a cat").score = claimed_score "a red cat" "a cat"
    ∧ ((grade_evaluation "a red cat" "a cat").passed = true ↔
        quality_threshold ≤ claimed_score "a red cat" "a cat")
    ∧ ((grade_evaluation "a red cat" "a cat").needs_refinement = true ↔
        claimed_score "a red cat" "a cat" < refinement_threshold)) :=
  ⟨by decide, grade_evaluation_matches_spec "a red cat" "a cat" (by decide)⟩

/-- C2: `select_best_variant` returns no selection on an empty list or when
no variant reaches the quality threshold (a missing score counts as 0), and
otherwise returns the first variant in original list order whose score is
maximal among the qualifying variants; in particular scores
[0.5, 0.9, 0.65] select the 0.9 variant and [0.1, 0.3] select nothing. -/
theorem select_best_variant_spec :
    (∀ variants : List Variant,
        select_best_variant variants = firstMaximalQualifier variants)
    ∧ select_best_variant
        [{ id := 0, evaluation_score := some (1/2) },
         { id := 1, evaluation_score := some (9/10) },
         { id := 2, evaluation_score := some (13/20) }]
        = some { id := 1, evaluation_score := some (9/10) }
    ∧ select_best_variant
        [{ id := 0, evaluation_score := some (1/10) },
         { id := 1, evaluation_score := some (3/10) }] = none := by
  refine ⟨?_, ?ex1, ?ex2⟩
  case ex1 =>
    norm_num [select_best_variant, qualifies, scoreOf, quality_threshold,
      List.filter_cons, pymax, pymaxStep]
  case ex2 =>
    norm_num [select_best_variant, qualifies, scoreOf, quality_threshold,
      List.filter_cons]
  intro variants
  cases variants with
  | nil => rfl
  | cons a as =>
      unfold select_best_variant firstMaximalQualifier
      have h1 : (fun v => qualifies v &&
            (a :: as).all (fun w => !qualifies w || decide (scoreOf w ≤ scoreOf v)))
          = (fun v => qualifies v &&
            ((a :: as).filter qualifies).all (fun w => decide (scoreOf w ≤ scoreOf v))) := by
        funext v
        rw [all_filter_iff]
      rw [h1]
      rw [find_and_filter (a :: as) qualifies
        (fun v => ((a :: as).filter qualifies).all (fun w => decide (scoreOf w ≤ scoreOf v)))]
      simp only [List.isEmpty_cons, Bool.false_eq_true, if_false]
      cases hf : (a :: as).filter qualifies with
      | nil => simp [hf]
      | cons q qs' =>
          simp only [hf]
          exact (find_first_max qs' q).symm

/-- C3: with max_iterations = 3, if every iteration produces a best variant
that still needs refinement, the per-prompt loop executes exactly the three
iterations 1, 2, 3 and then stops (iteration cap reached); the loop is a
total function, so it cannot run forever. -/
theorem pipeline_cap_three (step : Nat → Option BestVariant)
    (v1 v2 v3 : BestVariant)
    (h1 : step 1 = some v1) (r1 : v1.needs_refinement = true)
    (h2 : step 2 = some v2) (r2 : v2.needs_refinement = true)
    (h3 : step 3 = some v3) (r3 : v3.needs_refinement = true) :
    (runPromptPipeline 3 step).map Prod.fst = [1, 2, 3] := by
  simp [runPromptPipeline, promptLoop, h1, h2, h3, r1, r2, r3, refineInvoked]

/-- C3 witness: the loop with a step that always needs refinement runs
exactly iterations 1, 2, 3. -/
theorem pipeline_cap_three_witness :
    (runPromptPipeline 3 (fun _ => some { needs_refinement := true })).map Prod.fst
      = [1, 2, 3] :=
  pipeline_cap_three _ _ _ _ rfl rfl rfl rfl rfl rfl

/-- C4: if iteration 1 yields a best variant with needs_refinement = false,
the loop stops after iteration 1 and refine_prompt is never invoked: the
trace is exactly iteration 1 with the refine flag false. -/
theorem pipeline_stops_after_first (step : Nat → Option BestVariant) (v : BestVariant)
    (h1 : step 1 = some v) (hv : v.needs_refinement = false) :
    runPromptPipeline 3 step = [(1, false)] := by
  simp [runPromptPipeline, promptLoop, h1, hv, refineInvoked]

/-- C4 witness: a step whose first best variant does not need refinement. -/
theorem pipeline_stops_after_first_witness :
    runPromptPipeline 3 (fun _ => some { needs_refinement := false }) = [(1, false)] :=
  pipeline_stops_after_first _ _ rfl rfl

/-- C5: the code, unlike the claim, does NOT raise an InvalidInputError on a
prompt with no words: the ZeroDivisionError from line 40 is swallowed by the
catch-all except (lines 68-75) and a zero-score record is returned and
propagated downstream.  This theorem evaluates the code at the failing
input. -/
theorem grade_evaluation_empty_prompt_returns_zero :
    grade_evaluation "a cat sat" "" =
      { score := 0, passed := false, needs_refinement := true,
        feedback := "Error during evaluation: division by zero" } := by decide

/-- C6: grade_evaluation never lets an internal error escape: whenever the
body fails, the returned record is score 0, passed false, needs_refinement
true, with feedback describing the error.  (Totality of `grade_evaluation`
models that the function always returns a record.) -/
theorem grade_evaluation_error_record (d p e : String)
    (h : grade_evaluation_body d p = Except.error e) :
    grade_evaluation d p =
      { score := 0, passed := false, needs_refinement := true,
        feedback := "Error during evaluation: " ++ e } := by
  unfold grade_evaluation
  rw [h]

/-- C6 witness: the empty prompt makes the body fail with the
division-by-zero error and the error record is returned. -/
theorem grade_evaluation_error_record_witness :
    grade_evaluation_body "x" "" = Except.error "division by zero" ∧
    grade_evaluation "x" "" =
      { score := 0, passed := false, needs_refinement := true,
        feedback := "Error during evaluation: " ++ "division by zero" } :=
  ⟨by rfl, grade_evaluation_error_record "x" "" "division by zero" (by rfl)⟩

/-- C7: saving twice under the same (prompt_id, iteration) key replaces the
row: a read for that key afterwards returns exactly one record, the one from
the latest write.  (The iterations table and its unique key are modelled
from the spec because the repository contains no CREATE TABLE for it.) -/
theorem save_results_replaces (table : List IterationRow) (pid : String) (it : Int)
    (ip1 ev1 ip2 ev2 : Option String) :
    readIteration (save_results (save_results table pid it ip1 ev1) pid it ip2 ev2) pid it
      = [{ prompt_id := pid, iteration := it, image_path := ip2, evaluation_text := ev2,
           status := if ev2.isSome then "completed" else "generated" }] := by
  simp [readIteration, save_results, insertOrReplaceIteration, List.filter_append,
    List.filter_filter]

/-- C8: when the evaluation text contains the adherence phrase
(case-insensitively), refine_prompt returns the original prompt unchanged,
does not invoke the LLM and persists nothing — the stop signal is the
literal string match, independent of any numeric score. -/
theorem refine_prompt_adherence (db : List RefinedRow) (llm : Option String)
    (op pid text : String) (h : containsPhrase adherence_phrase text = true) :
    refine_prompt db llm op pid (some text) =
      { result := some op, llm_invoked := false, db := db } := by
  simp [refine_prompt, h]

/-- C8 witness: an upper-case occurrence of the phrase triggers the early
return even though an LLM answer was available. -/
theorem refine_prompt_adherence_witness :
    containsPhrase adherence_phrase "The IMAGE ADHERES TO THE PROMPT exactly." = true ∧
    refine_prompt [] (some "r") "orig" "p1"
        (some "The IMAGE ADHERES TO THE PROMPT exactly.") =
      { result := some "orig", llm_invoked := false, db := [] } :=
  ⟨by decide, refine_prompt_adherence [] (some "r") "orig" "p1" _ (by decide)⟩

/-- C9: every row refine_prompt adds to the refined_prompts table carries
needs_refinement = true: the only assignment of false is followed by a
return before any database write. -/
theorem refined_rows_always_need_refinement (db : List RefinedRow) (llm : Option String)
    (op pid : String) (er : Option String) (r : RefinedRow)
    (hr : r ∈ (refine_prompt db llm op pid er).db) (hnew : r ∉ db) :
    r.needs_refinement = true := by
  cases er with
  | none => exact absurd hr hnew
  | some text =>
      by_cases h : containsPhrase adherence_phrase text = true
      · simp [refine_prompt, h] at hr
        exact absurd hr hnew
      · cases llm with
        | none => simp [refine_prompt, h] at hr; exact absurd hr hnew
        | some rc =>
            simp [refine_prompt, h, saveRefinedPrompt] at hr
            rcases hr with hr | hr
            · exact absurd hr hnew
            · rw [hr]

/-- C9 witness: a concrete refinement run on an empty table stores one row
and that row has needs_refinement = true. -/
theorem refined_rows_always_need_refinement_witness :
    ({ original_prompt_id := "p1", iteration := 1, refined_prompt := "ref",
       evaluation_text := "desc", needs_refinement := true } : RefinedRow) ∈
      (refine_prompt [] (some "ref") "orig" "p1" (some "desc")).db ∧
    ({ original_prompt_id := "p1", iteration := 1, refined_prompt := "ref",
       evaluation_text := "desc", needs_refinement := true } : RefinedRow).needs_refinement
      = true :=
  ⟨by decide,
   refined_rows_always_need_refinement [] (some "ref") "orig" "p1" (some "desc") _
     (by decide) (by decide)⟩

/-- C10: for a nonzero requested size n the batch size is
max(1, min(n, 10)), which always lies in [1, 10]; a requested size of 0 is
falsy in Python and yields the configured default 5 (as does None). -/
theorem get_batch_size_spec (n : Int) (h : n ≠ 0) :
    (get_batch_size (some n) = max 1 (min n 10) ∧
     1 ≤ get_batch_size (some n) ∧ get_batch_size (some n) ≤ 10) ∧
    get_batch_size (some 0) = 5 ∧ get_batch_size none = 5 := by
  refine ⟨⟨?_, ?_, ?_⟩, by decide, by decide⟩
  · simp [get_batch_size, pyOrDefault, h, batch_size_min, batch_size_max]
  · simp [get_batch_size, batch_size_min]
  · simp [get_batch_size, pyOrDefault, batch_size_min, batch_size_max]

/-- C10 witness: requested size 37 is clamped to 10; 0 and None give 5. -/
theorem get_batch_size_spec_witness :
    ((get_batch_size (some 37) = max 1 (min 37 10) ∧
      1 ≤ get_batch_size (some 37) ∧ get_batch_size (some 37) ≤ 10) ∧
     get_batch_size (some 0) = 5 ∧ get_batch_size none = 5) :=
  get_batch_size_spec 37 (by decide)
